import Mathlib

/-!
Shallow embedding of the PyMax session transport and dispatch engine
(src/pymax/interfaces.py) and proofs about it.

Conventions of the embedding:
* Python dicts keyed by sequence / attachment ids become association lists
  with (by dict semantics) unique keys; in-place mutation of a future object
  becomes a functional update of the entry holding it.
* `asyncio.Future` objects are modelled by an explicit state
  (pending / resolved / failed); `fut.done()` is `state ≠ pending`.
* Frame payloads and decoded entities are abstracted to `Nat` identifiers:
  the engine never inspects entity internals, it only routes them.
* Machine floats in retry delays are exact small integers (1.0, 5.0, 2.0,
  float(2**n)), so delays are modelled as `Nat` seconds.
-/

namespace PyMax

/-- Opcodes consumed by the core (pymax.static.enum.Opcode members used in
interfaces.py). -/
inductive Opcode
  | SESSION_INIT
  | LOGIN
  | PING
  | NOTIF_MESSAGE
  | NOTIF_MSG_REACTIONS_CHANGED
  | NOTIF_CHAT
  | NOTIF_ATTACH
  | UNKNOWN
  deriving DecidableEq, Repr

/-- Python exception classes that reach `_get_retry_delay` and the pipeline.
`osError` stands for an `OSError` that is not a `ConnectionError` and not a
`TimeoutError`; the subclass relations below follow CPython's builtin
exception hierarchy, in which `ConnectionError` and `TimeoutError` are both
subclasses of `OSError` (PEP 3151, unchanged since Python 3.3).
`webSocketNotConnectedError` is pymax's own exception
(pymax.exceptions.WebSocketNotConnectedError), a plain `Exception` subclass
per the spec's error taxonomy (`NotConnectedError` is its own class). -/
inductive PyError
  | connectionError
  | osError
  | timeoutError
  | webSocketNotConnectedError
  | otherError
  deriving DecidableEq, Repr

/-- isinstance(error, ConnectionError) under CPython's hierarchy. -/
def PyError.isConnectionError : PyError → Bool
  | .connectionError => true
  | _ => false

/-- isinstance(error, OSError): ConnectionError and TimeoutError are OSError
subclasses in CPython. -/
def PyError.isOSError : PyError → Bool
  | .connectionError => true
  | .osError => true
  | .timeoutError => true
  | _ => false

/-- isinstance(error, TimeoutError). -/
def PyError.isTimeoutError : PyError → Bool
  | .timeoutError => true
  | _ => false

/-- isinstance(error, WebSocketNotConnectedError). -/
def PyError.isWebSocketNotConnectedError : PyError → Bool
  | .webSocketNotConnectedError => true
  | _ => false

/-- BaseTransport._get_retry_delay: branch for branch from the source.
`isinstance(error, (ConnectionError, OSError))` is the first test, so any
OSError subclass instance (including TimeoutError) takes the 1-second
branch. -/
def get_retry_delay (error : PyError) (retry_count : Nat) : Nat :=
  if error.isConnectionError || error.isOSError then 1
  else if error.isTimeoutError then 5
  else if error.isWebSocketNotConnectedError then 2
  else 2 ^ retry_count

/-! ## Wire codec: BaseTransport._make_message -/

/-- A wire frame as built by `_make_message` via BaseWebSocketMessage
`{ver, cmd, seq, opcode, payload}`; the payload is abstracted to an
identifier. -/
structure Frame where
  ver : Nat
  cmd : Nat
  seq : Nat
  opcode : Opcode
  payload : Nat
  deriving DecidableEq, Repr

/-- BaseTransport._make_message: `self._seq += 1` then build the frame with
the incremented counter. The mutable `self._seq` is passed and returned
explicitly. -/
def make_message (seq : Nat) (opcode : Opcode) (payload : Nat) (cmd : Nat) :
    Frame × Nat :=
  let s := seq + 1
  ({ ver := 11, cmd := cmd, seq := s, opcode := opcode, payload := payload }, s)

/-- Building a batch of frames in succession, threading the sequence
counter. -/
def make_messages (seq : Nat) : List (Opcode × Nat × Nat) → List Frame × Nat
  | [] => ([], seq)
  | (op, p, c) :: rest =>
    let fs := make_message seq op p c
    let tail := make_messages fs.2 rest
    (fs.1 :: tail.1, tail.2)

/-! ## Correlation table: BaseTransport._handle_pending and teardown -/

/-- The state of an asyncio.Future held in the pending map: fresh, fulfilled
by `set_result(data)` (the inbound frame, abstracted to an identifier), or
failed by `set_exception(WebSocketNotConnectedError())`. -/
inductive FutureState
  | pending
  | resolved (data : Nat)
  | failedNotConnected
  deriving DecidableEq, Repr

/-- A correlation-table slot (an asyncio.Future). -/
structure PendingFuture where
  state : FutureState
  deriving DecidableEq, Repr

/-- fut.done(): a future is done once resolved or failed. -/
def PendingFuture.done (f : PendingFuture) : Bool :=
  match f.state with
  | .pending => false
  | _ => true

/-- dict.get(key): first (under dict semantics: only) entry with the given
key. -/
def dictGet {α : Type} (xs : List (Int × α)) (k : Int) : Option α :=
  match xs with
  | [] => none
  | (k', v) :: rest => if k' = k then some v else dictGet rest k

/-- fut.set_result(data) on the future stored under key `s`: functional
image of the in-place mutation (every entry under another key is kept as
it is). -/
def resolveSeq : List (Int × PendingFuture) → Int → Nat →
    List (Int × PendingFuture)
  | [], _, _ => []
  | (k, f) :: rest, s, data =>
    (if k = s then (k, ⟨FutureState.resolved data⟩) else (k, f)) ::
      resolveSeq rest s data

/-- BaseTransport._handle_pending: if `seq` is an int and the pending map
holds an un-done future under it, fulfill it with the frame and report a
match; otherwise report no match and leave the table alone. `seq = none`
models a frame whose seq field is absent or not an int. -/
def handle_pending (seq : Option Int) (data : Nat)
    (pending : List (Int × PendingFuture)) :
    Bool × List (Int × PendingFuture) :=
  match seq with
  | none => (false, pending)
  | some s =>
    match dictGet pending s with
    | some fut =>
      if fut.done then (false, pending)
      else (true, resolveSeq pending s data)
    | none => (false, pending)

/-! ## Teardown: BaseClient._cleanup_client -/

/-- The session-level mutable state touched by `_cleanup_client`. Tasks are
abstracted to identifiers; `ws` records whether a socket handle is held. -/
structure ClientState where
  background_tasks : List Nat
  recv_task : Option Nat
  outgoing_task : Option Nat
  pending : List (Int × PendingFuture)
  ws : Bool
  is_connected : Bool
  deriving DecidableEq, Repr

/-- The `for fut in self._pending.values(): if not fut.done():
fut.set_exception(WebSocketNotConnectedError())` loop, acting on one
future. -/
def failPendingFuture (f : PendingFuture) : PendingFuture :=
  if f.done then f else ⟨FutureState.failedNotConnected⟩

/-- What `_cleanup_client` leaves behind: the final client state, the tasks
it cancelled-and-awaited, and the pending futures as their external holders
observe them after the fail-all loop ran (the map itself is then cleared). -/
structure CleanupOutcome where
  state : ClientState
  cancelledTasks : List Nat
  failedFutures : List (Int × PendingFuture)
  deriving DecidableEq, Repr

/-- BaseClient._cleanup_client: cancel and discard every background task and
the recv/outgoing tasks, fail every not-yet-done pending future with
WebSocketNotConnectedError, clear the pending map, close and drop the
socket, clear the connected flag. Exceptions during task cancellation and
socket close are swallowed (logged at debug), so the function is total. -/
def cleanup_client (st : ClientState) : CleanupOutcome :=
  let cancelled :=
    st.background_tasks ++ st.recv_task.toList ++ st.outgoing_task.toList
  let failed := st.pending.map fun kf => (kf.1, failPendingFuture kf.2)
  { state :=
      { background_tasks := []
        recv_task := none
        outgoing_task := none
        pending := []
        ws := false
        is_connected := false }
    cancelledTasks := cancelled
    failedFutures := failed }

/-! ## Outgoing queue worker: BaseTransport._outgoing_loop -/

/-- A queued outgoing message as built by `_queue_message`
`{opcode, payload, cmd, timeout, retry_count, max_retries}`. -/
structure OutgoingMessage where
  opcode : Opcode
  payload : Nat
  cmd : Nat
  timeout : Nat
  retry_count : Nat
  max_retries : Nat
  deriving DecidableEq, Repr

/-- The worker-visible mutable state of the outgoing path: the FIFO queue
(head = next to dequeue; `put` appends at the tail), the consecutive-error
counter, the time of the last recorded error, and the circuit-breaker
flag. -/
structure LoopState where
  queue : List OutgoingMessage
  error_count : Nat
  last_error_time : Nat
  circuit_breaker : Bool
  deriving DecidableEq, Repr

/-- What one iteration of the `while self.is_connected` body of
`_outgoing_loop` did. Sleep durations (seconds) are recorded on the events
that sleep. -/
inductive LoopEvent
  | breakerWait (sleepSecs : Nat)
  | blocked
  | sendOk (m : OutgoingMessage)
  | breakerTrip (m : OutgoingMessage)
  | retryScheduled (m : OutgoingMessage) (delaySecs : Nat)
  | dropFailed (m : OutgoingMessage)
  deriving DecidableEq, Repr

/-- Events on which `_send_and_wait` was called once. -/
def LoopEvent.isSendAttempt : LoopEvent → Bool
  | .sendOk _ => true
  | .breakerTrip _ => true
  | .retryScheduled _ _ => true
  | .dropFailed _ => true
  | _ => false

/-- One iteration of the loop body of `_outgoing_loop`, with `self._outgoing`
initialised and the session connected. `sendResult m` is the outcome of
`await self._send_and_wait(...)` for message `m` (`none` = returned,
`some e` = raised `e`); `now` is what `time.time()` reads during this
iteration. Mirrors the source: an open breaker whose cool-down has elapsed
(`time.time() - self._last_error_time > 60`) is reset and the same iteration
falls through to the dequeue; an open breaker otherwise sleeps 5 seconds and
continues without dequeuing; a success decrements the error counter with
floor 0; a failure increments it and stamps the time, then either trips the
breaker (counter > 10) and re-enqueues the message unchanged, or sleeps the
per-class retry delay and re-enqueues with `retry_count + 1` when
`retry_count < max_retries`, or drops the message. -/
def outgoingStep (sendResult : OutgoingMessage → Option PyError) (now : Nat)
    (st : LoopState) : LoopEvent × LoopState :=
  let st :=
    if st.circuit_breaker ∧ now - st.last_error_time > 60 then
      { st with circuit_breaker := false, error_count := 0 }
    else st
  if st.circuit_breaker then
    (.breakerWait 5, st)
  else
    match st.queue with
    | [] => (.blocked, st)
    | m :: rest =>
      match sendResult m with
      | none =>
        (.sendOk m, { st with queue := rest, error_count := st.error_count - 1 })
      | some e =>
        let ec := st.error_count + 1
        if ec > 10 then
          (.breakerTrip m,
           { st with
               queue := rest ++ [m]
               error_count := ec
               last_error_time := now
               circuit_breaker := true })
        else
          let delay := get_retry_delay e m.retry_count
          if m.retry_count < m.max_retries then
            (.retryScheduled m delay,
             { st with
                 queue := rest ++ [{ m with retry_count := m.retry_count + 1 }]
                 error_count := ec
                 last_error_time := now })
          else
            (.dropFailed m,
             { st with queue := rest, error_count := ec, last_error_time := now })

/-- Iterate `outgoingStep` once per clock reading in `times`, collecting the
events. -/
def runLoop (sendResult : OutgoingMessage → Option PyError) :
    List Nat → LoopState → List LoopEvent × LoopState
  | [], st => ([], st)
  | t :: ts, st =>
    let step := outgoingStep sendResult t st
    let rest := runLoop sendResult ts step.2
    (step.1 :: rest.1, rest.2)

/-! ## Incoming dispatch pipeline: BaseTransport._dispatch_incoming

Handlers are modelled by their observable behaviour on the frame being
dispatched: a handler call either returns an ordinary value, returns a
coroutine (which raises or not when run), or raises synchronously. The
pipeline's own control flow — which stage catches what, which stage awaits
a coroutine inline and which spawns it via `_create_safe_task` — is taken
from the source, stage by stage. -/

/-- Handler categories (the registration lists on the client). -/
inductive HandlerCat
  | rawReceive
  | onMessage
  | onMessageEdit
  | onMessageDelete
  | reactionChange
  | chatUpdate
  deriving DecidableEq, Repr

/-- Observable behaviour of one handler call on the dispatched frame. -/
inductive HandlerResult
  | value
  | coroutine (raisesWhenRun : Bool)
  | raises
  deriving DecidableEq, Repr

/-- Message status values the dispatcher routes on
(pymax.types.MessageStatus); `otherStatus` stands for any further member. -/
inductive MessageStatus
  | EDITED
  | REMOVED
  | otherStatus
  deriving DecidableEq, Repr

/-- The fields of a decoded Message that the dispatcher reads: `chat_id`,
`id` (abstracted to ints; `none` = attribute is None) and `status`. -/
structure Message where
  chat_id : Option Int
  id : Option Int
  status : Option MessageStatus
  deriving DecidableEq, Repr

/-- An inbound frame as the pipeline views it: its opcode plus the outcome
of every payload read / boundary decode the stages perform on it.
`message` is the result of `Message.from_dict(payload)` (`none` = falsy),
`fileId` / `videoId` are `payload.get("fileId"/"videoId")`,
`reactChatId` / `reactMessageId` are `payload.get("chatId"/"messageId")`,
and `chat` is the result of `Chat.from_dict(payload.get("chat", {}))`
(entities abstracted to identifiers). -/
structure InFrame where
  opcode : Opcode
  message : Option Message
  fileId : Option Int
  videoId : Option Int
  reactChatId : Option Int
  reactMessageId : Option Int
  chat : Option Nat
  deriving DecidableEq, Repr

/-- Observable events of one dispatch. `invoked` = the handler was called;
`spawnedTask` = its coroutine was handed to `_create_safe_task`;
`awaitedInline` = its coroutine was awaited inside the stage;
`caughtLogged` = the stage's per-handler except block caught and logged an
exception; `ackSent` = a receipt acknowledgment frame was issued;
`waiterResolved` = an upload waiter future got `set_result`. -/
inductive Effect
  | invoked (cat : HandlerCat) (idx : Nat)
  | spawnedTask (cat : HandlerCat) (idx : Nat)
  | awaitedInline (cat : HandlerCat) (idx : Nat)
  | caughtLogged (cat : HandlerCat) (idx : Nat)
  | ackSent (chatId : Int) (messageId : Int)
  | waiterResolved (id : Int)
  deriving DecidableEq, Repr

/-- Call one handler and deal with a coroutine result the way the invoking
stage does: `awaitCoroutine = true` models `if asyncio.iscoroutine(result):
await result` (the raw-receive, reaction and chat-update stages), so a
raising coroutine re-raises at the await; `awaitCoroutine = false` models
`self._create_safe_task(result, ...)` (`_process_message_handler`), whose
runner catches, logs and re-raises only inside the spawned task, never into
the pipeline. The returned flag says whether the call raised into the
stage. -/
def invokeHandler (cat : HandlerCat) (idx : Nat) (res : HandlerResult)
    (awaitCoroutine : Bool) : List Effect × Bool :=
  match res with
  | .value => ([.invoked cat idx], false)
  | .raises => ([.invoked cat idx], true)
  | .coroutine r =>
    if awaitCoroutine then
      ([.invoked cat idx, .awaitedInline cat idx], r)
    else
      ([.invoked cat idx, .spawnedTask cat idx], false)

/-- The per-handler `try: ... except Exception: logger.exception(...)`
block of the raw-receive, reaction and chat-update stages. -/
def catchLog (cat : HandlerCat) (idx : Nat) (r : List Effect × Bool) :
    List Effect :=
  if r.2 then r.1 ++ [.caughtLogged cat idx] else r.1

/-- A `for handler in handlers:` loop whose body is a per-handler try/except
around call-then-await-if-coroutine. Never raises into the caller. -/
def runCaughtHandlers (cat : HandlerCat) (idx : Nat) :
    List HandlerResult → List Effect
  | [] => []
  | r :: rest =>
    catchLog cat idx (invokeHandler cat idx r true) ++
      runCaughtHandlers cat (idx + 1) rest

/-- BaseTransport._handle_raw_receive: every raw-receive handler gets the
full decoded frame; each call is wrapped in its own try/except; coroutine
results are awaited inline. -/
def handle_raw_receive (handlers : List (InFrame → HandlerResult))
    (data : InFrame) : List Effect :=
  runCaughtHandlers HandlerCat.rawReceive 0 (handlers.map fun h => h data)

/-- BaseTransport._handle_reactions: only NOTIF_MSG_REACTIONS_CHANGED
frames; returns early unless `chat_id and message_id` are both truthy; each
handler is called with `(message_id, chat_id, reaction_info)` inside a
per-handler try/except, coroutines awaited inline. The ReactionInfo record
is built totally from the payload and does not affect control flow, so it
is elided from the handler's modelled arguments. -/
def handle_reactions (handlers : List (Int → Int → HandlerResult))
    (data : InFrame) : List Effect :=
  if data.opcode ≠ Opcode.NOTIF_MSG_REACTIONS_CHANGED then []
  else
    match data.reactChatId, data.reactMessageId with
    | some cid, some mid =>
      if cid ≠ 0 ∧ mid ≠ 0 then
        runCaughtHandlers HandlerCat.reactionChange 0
          (handlers.map fun h => h mid cid)
      else []
    | _, _ => []

/-- BaseTransport._handle_chat_updates: only NOTIF_CHAT frames; returns
early when `Chat.from_dict` yields a falsy value; each handler runs inside
a per-handler try/except, coroutines awaited inline. -/
def handle_chat_updates (handlers : List (Nat → HandlerResult))
    (data : InFrame) : List Effect :=
  if data.opcode ≠ Opcode.NOTIF_CHAT then []
  else
    match data.chat with
    | none => []
    | some c =>
      runCaughtHandlers HandlerCat.chatUpdate 0 (handlers.map fun h => h c)

/-- A registered message handler: optional filter plus the handler's
behaviour on a message. -/
structure MessageHandler where
  filter : Option (Message → Bool)
  run : Message → HandlerResult

/-- BaseTransport._process_message_handler: apply the filter if present,
call the handler when it passes or is absent, and hand a coroutine result
to `_create_safe_task`. There is no try/except here: a synchronously
raising handler (or call) raises into the caller. -/
def process_message_handler (cat : HandlerCat) (idx : Nat)
    (h : MessageHandler) (message : Message) : List Effect × Bool :=
  match h.filter with
  | some f =>
    if f message then invokeHandler cat idx (h.run message) false
    else ([], false)
  | none => invokeHandler cat idx (h.run message) false

/-- The `for handler, filter in handlers: await
self._process_message_handler(...)` loop: a raise aborts the remaining
iterations and propagates. -/
def runMessageHandlers (cat : HandlerCat) (idx : Nat)
    (handlers : List MessageHandler) (message : Message) :
    List Effect × Bool :=
  match handlers with
  | [] => ([], false)
  | h :: rest =>
    let r := process_message_handler cat idx h message
    if r.2 then r
    else
      let rr := runMessageHandlers cat (idx + 1) rest message
      (r.1 ++ rr.1, rr.2)

/-- The registered handler sets of one session, plus whether the transport
mode requires receipt acknowledgments (`self._socket is not None` and
connected, the guards of `_send_notification_response`). -/
structure HandlerConfig where
  requiresAck : Bool
  onRawReceive : List (InFrame → HandlerResult)
  onMessage : List MessageHandler
  onMessageEdit : List MessageHandler
  onMessageDelete : List MessageHandler
  onReactionChange : List (Int → Int → HandlerResult)
  onChatUpdate : List (Nat → HandlerResult)

/-- The `if msg.chat_id and msg.id: await self._send_notification_response
(msg.chat_id, str(msg.id))` step: a receipt acknowledgment is issued when
both fields are truthy and the transport mode requires acknowledgments
(`_send_notification_response` returns early in WebSocket mode or when
disconnected); the ack send is modelled as non-raising. -/
def ackEffects (requiresAck : Bool) (msg : Message) : List Effect :=
  match msg.chat_id, msg.id with
  | some c, some i =>
    if c ≠ 0 ∧ i ≠ 0 ∧ requiresAck then [Effect.ackSent c i] else []
  | _, _ => []

/-- BaseTransport._handle_message_notifications: only NOTIF_MESSAGE frames;
drop the frame when `Message.from_dict` is falsy; send the receipt
acknowledgment when `msg.chat_id and msg.id` are truthy (and the transport
mode requires one); then route by status through
`_process_message_handler`: the `handlers_map` lookup sends EDITED to the
edit handlers and REMOVED to the delete handlers (enum members are truthy),
`status is None` to the new-message handlers, any other status to no
handlers. A raise from a handler aborts the stage. -/
def handle_message_notifications (cfg : HandlerConfig) (data : InFrame) :
    List Effect × Bool :=
  if data.opcode ≠ Opcode.NOTIF_MESSAGE then ([], false)
  else
    match data.message with
    | none => ([], false)
    | some msg =>
      let ack := ackEffects cfg.requiresAck msg
      let hres :=
        match msg.status with
        | some MessageStatus.EDITED =>
          runMessageHandlers HandlerCat.onMessageEdit 0 cfg.onMessageEdit msg
        | some MessageStatus.REMOVED =>
          runMessageHandlers HandlerCat.onMessageDelete 0 cfg.onMessageDelete msg
        | some MessageStatus.otherStatus => ([], false)
        | none =>
          runMessageHandlers HandlerCat.onMessage 0 cfg.onMessage msg
      (ack ++ hres.1, hres.2)

/-! ## Upload waiters: BaseTransport._handle_file_upload -/

/-- An upload-waiter future: only its done flag matters to the stage. -/
structure UploadFuture where
  done : Bool
  deriving DecidableEq, Repr

/-- One iteration of `for key in ("fileId", "videoId"):` — when the payload
holds the key, `self._file_upload_waiters.pop(id_, None)` removes the entry
(a no-op on the map when the key is absent) and the popped future gets
`set_result(data)` only when it is not yet done. -/
def uploadKeyStep (waiters : List (Int × UploadFuture)) (idOpt : Option Int) :
    List (Int × UploadFuture) × List Effect :=
  match idOpt with
  | none => (waiters, [])
  | some i =>
    let found := dictGet waiters i
    let rest := waiters.filter fun kf => kf.1 != i
    match found with
    | some fut =>
      (rest, if fut.done then [] else [Effect.waiterResolved i])
    | none => (rest, [])

/-- BaseTransport._handle_file_upload: only NOTIF_ATTACH frames; process
the "fileId" key, then the "videoId" key, on the waiter map. -/
def handle_file_upload (data : InFrame)
    (waiters : List (Int × UploadFuture)) :
    List (Int × UploadFuture) × List Effect :=
  if data.opcode ≠ Opcode.NOTIF_ATTACH then (waiters, [])
  else
    let s1 := uploadKeyStep waiters data.fileId
    let s2 := uploadKeyStep s1.1 data.videoId
    (s2.1, s1.2 ++ s2.2)

/-- The outcome of `_dispatch_incoming` on one frame: the effects that
happened (in order), the upload-waiter map afterwards, and whether an
exception propagated out of the dispatcher (aborting the stages after the
raising one). -/
structure DispatchResult where
  effects : List Effect
  waiters : List (Int × UploadFuture)
  raised : Bool

/-- BaseTransport._dispatch_incoming: the five stages in source order —
raw-receive hooks, upload-waiter resolution, message notifications,
reaction-change notifications, chat-update notifications. The first three
always run; a raise out of the message stage skips the last two and
propagates out of the dispatcher. -/
def dispatch_incoming (cfg : HandlerConfig)
    (waiters : List (Int × UploadFuture)) (data : InFrame) : DispatchResult :=
  let raw := handle_raw_receive cfg.onRawReceive data
  let up := handle_file_upload data waiters
  let msg := handle_message_notifications cfg data
  if msg.2 then
    { effects := raw ++ up.2 ++ msg.1, waiters := up.1, raised := true }
  else
    let react := handle_reactions cfg.onReactionChange data
    let chat := handle_chat_updates cfg.onChatUpdate data
    { effects := raw ++ up.2 ++ msg.1 ++ react ++ chat
      waiters := up.1
      raised := false }

/-! ## Initial sync: BaseTransport._sync -/

/-- The `type` discriminator of a raw chat entry, compared against
ChatType.DIALOG/CHAT/CHANNEL values; `otherKind` covers an absent or
non-matching discriminator (no branch taken). -/
inductive ChatKind
  | DIALOG
  | CHAT
  | CHANNEL
  | otherKind
  deriving DecidableEq, Repr

/-- Outcome of Dialog/Chat/Channel.from_dict on one raw entry (entities
abstracted to identifiers), per the decoder boundary: a decoded entity, a
falsy value (None on malformed input — the same decoders are guarded with
`if not chat:` in `_handle_chat_updates` and `if not msg:` in
`_handle_message_notifications`), or a raise (`raisesDecode`), which the
per-entry except block of `_sync` catches and logs. -/
inductive ChatDecode
  | ok (v : Nat)
  | noneResult
  | raisesDecode
  deriving DecidableEq, Repr

/-- One element of the response's "chats" list. -/
structure RawChatEntry where
  kind : ChatKind
  decode : ChatDecode
  deriving DecidableEq, Repr

/-- Outcome of User.from_dict on one raw contact: a user, a falsy value
(skipped by `if user:`), or a raise (caught and logged per entry). -/
inductive UserDecode
  | ok (v : Nat)
  | noneResult
  | raisesDecode
  deriving DecidableEq, Repr

/-- Outcome of Me.from_dict on the profile contact: an entity, a falsy
value (assigned to `self.me` as-is, i.e. None), or a raise — a raise here
is NOT caught per-entry, it hits the outer except block of `_sync`. -/
inductive MeDecode
  | ok (v : Nat)
  | noneResult
  | raisesDecode
  deriving DecidableEq, Repr

/-- The decoded LOGIN response payload as `_sync` reads it: the truthiness
of its "error" field, the raw "chats" and "contacts" lists (as their
boundary-decode outcomes), and "profile"."contact" when truthy. -/
structure SyncResponse where
  error : Bool
  chats : List RawChatEntry
  contacts : List UserDecode
  profileContact : Option MeDecode
  deriving DecidableEq, Repr

/-- The session caches `_sync` populates, plus the socket handle and the
connected flag it tears down on failure. The dialogs/chats/channels caches
hold the raw `from_dict` results: `_sync` appends them unguarded
(`self.dialogs.append(Dialog.from_dict(raw_chat))`, likewise chats and
channels), so a falsy decode result ends up in the cache as a `none`
entry; the contacts cache holds only truthy users (`if user:` guard). -/
structure SessionState where
  dialogs : List (Option Nat)
  chats : List (Option Nat)
  channels : List (Option Nat)
  contacts : List Nat
  me : Option Nat
  ws : Bool
  is_connected : Bool
  deriving DecidableEq, Repr

/-- The except block of `_sync`: mark disconnected, close and drop the
socket (the caches keep whatever was already appended). -/
def syncFail (st : SessionState) : SessionState :=
  { st with is_connected := false, ws := false }

/-- One iteration of the `for raw_chat in raw_payload.get("chats", []):`
loop: route by the type discriminator and append whatever `from_dict`
returned — the append is unguarded, so a falsy decode result is appended
as a `none` entry; a decoder raise is caught and logged, leaving the state
untouched; a non-matching discriminator takes no branch. -/
def syncChatEntry (st : SessionState) (e : RawChatEntry) : SessionState :=
  match e.kind, e.decode with
  | ChatKind.DIALOG, ChatDecode.ok v =>
    { st with dialogs := st.dialogs ++ [some v] }
  | ChatKind.DIALOG, ChatDecode.noneResult =>
    { st with dialogs := st.dialogs ++ [none] }
  | ChatKind.CHAT, ChatDecode.ok v =>
    { st with chats := st.chats ++ [some v] }
  | ChatKind.CHAT, ChatDecode.noneResult =>
    { st with chats := st.chats ++ [none] }
  | ChatKind.CHANNEL, ChatDecode.ok v =>
    { st with channels := st.channels ++ [some v] }
  | ChatKind.CHANNEL, ChatDecode.noneResult =>
    { st with channels := st.channels ++ [none] }
  | _, _ => st

/-- One iteration of the `for raw_user in raw_payload.get("contacts", []):`
loop: append a decoded user; skip a falsy decode; catch and log a raise. -/
def syncContactEntry (st : SessionState) (u : UserDecode) : SessionState :=
  match u with
  | UserDecode.ok v => { st with contacts := st.contacts ++ [v] }
  | _ => st

/-- BaseTransport._sync. `resp = none` models `_send_and_wait` raising
(request failure); otherwise the response is processed inside the outer
try: a truthy error field makes `MixinsUtils.handle_error(data)` raise
(modelled from the spec: pymax.utils is outside src/, and the spec says a
response whose payload carries an error field fails with the
server-reported error), landing in the except block; per-entry decode
failures are caught inside the loops; a raise from `Me.from_dict` lands in
the except block after the loops ran. The except block marks the session
disconnected, closes the socket and re-raises — the returned flag reports
whether `_sync` raised to its caller. -/
def sync (resp : Option SyncResponse) (st : SessionState) :
    SessionState × Bool :=
  match resp with
  | none => (syncFail st, true)
  | some r =>
    if r.error then (syncFail st, true)
    else
      let st1 := r.chats.foldl syncChatEntry st
      let st2 := r.contacts.foldl syncContactEntry st1
      match r.profileContact with
      | some (MeDecode.ok v) => ({ st2 with me := some v }, false)
      | some MeDecode.noneResult => ({ st2 with me := none }, false)
      | some MeDecode.raisesDecode => (syncFail st2, true)
      | none => (st2, false)

/-- The values a chat list contributes to the dialogs cache: for each
DIALOG-typed entry whose decode did not raise, the raw decode result —
`some v` for a decoded entity, `none` for a falsy decode (appended
unguarded by `_sync`). Raising entries contribute nothing. -/
def dialogParts (es : List RawChatEntry) : List (Option Nat) :=
  es.filterMap fun e =>
    match e.kind, e.decode with
    | ChatKind.DIALOG, ChatDecode.ok v => some (some v)
    | ChatKind.DIALOG, ChatDecode.noneResult => some none
    | _, _ => none

/-- The values a chat list contributes to the chats cache (same convention
as `dialogParts`). -/
def chatParts (es : List RawChatEntry) : List (Option Nat) :=
  es.filterMap fun e =>
    match e.kind, e.decode with
    | ChatKind.CHAT, ChatDecode.ok v => some (some v)
    | ChatKind.CHAT, ChatDecode.noneResult => some none
    | _, _ => none

/-- The values a chat list contributes to the channels cache (same
convention as `dialogParts`). -/
def channelParts (es : List RawChatEntry) : List (Option Nat) :=
  es.filterMap fun e =>
    match e.kind, e.decode with
    | ChatKind.CHANNEL, ChatDecode.ok v => some (some v)
    | ChatKind.CHANNEL, ChatDecode.noneResult => some none
    | _, _ => none

/-- The users a contact list contributes to the contacts cache: the
successfully decoded, non-falsy ones. -/
def contactParts (us : List UserDecode) : List Nat :=
  us.filterMap fun u =>
    match u with
    | UserDecode.ok v => some v
    | _ => none

/-- A message handler's filter gate: passes when the filter is absent or
returns true on the message (the condition under which
`_process_message_handler` calls the handler). -/
def filterPasses (h : MessageHandler) (msg : Message) : Bool :=
  match h.filter with
  | none => true
  | some f => f msg

/-- A concrete queued message used to witness the circuit-breaker claim. -/
def c2msg : OutgoingMessage :=
  { opcode := Opcode.PING, payload := 0, cmd := 0, timeout := 30
    retry_count := 0, max_retries := 3 }

/-- A concrete queued message (maxRetries = 3, fresh retry counter) for the
retry-policy run. -/
def c3msg : OutgoingMessage :=
  { opcode := Opcode.PING, payload := 0, cmd := 0, timeout := 30
    retry_count := 0, max_retries := 3 }

/-- A NOTIF_MESSAGE frame decoding to a status-less message, for the
handler-exception counterexample. -/
def c1Frame : InFrame :=
  { opcode := Opcode.NOTIF_MESSAGE
    message := some { chat_id := none, id := none, status := none }
    fileId := none, videoId := none
    reactChatId := none, reactMessageId := none, chat := none }

/-- A handler set with a synchronously raising new-message handler followed
by a well-behaved one. -/
def c1Config : HandlerConfig :=
  { requiresAck := false
    onRawReceive := []
    onMessage :=
      [{ filter := none, run := fun _ => HandlerResult.raises },
       { filter := none, run := fun _ => HandlerResult.value }]
    onMessageEdit := []
    onMessageDelete := []
    onReactionChange := []
    onChatUpdate := [] }

/-- A handler set with raising handlers in the stages that have per-handler
try/except blocks. -/
def c1wConfig : HandlerConfig :=
  { requiresAck := false
    onRawReceive := [fun _ => HandlerResult.raises, fun _ => HandlerResult.value]
    onMessage := []
    onMessageEdit := []
    onMessageDelete := []
    onReactionChange :=
      [fun _ _ => HandlerResult.raises, fun _ _ => HandlerResult.value]
    onChatUpdate := [fun _ => HandlerResult.raises] }

/-- A reaction-change notification frame with truthy chatId and messageId. -/
def c1wReactFrame : InFrame :=
  { opcode := Opcode.NOTIF_MSG_REACTIONS_CHANGED
    message := none, fileId := none, videoId := none
    reactChatId := some 5, reactMessageId := some 6, chat := none }

/-- A chat-update notification frame with a decodable chat. -/
def c1wChatFrame : InFrame :=
  { opcode := Opcode.NOTIF_CHAT
    message := none, fileId := none, videoId := none
    reactChatId := none, reactMessageId := none, chat := some 3 }

/-- A NOTIF_CHAT frame with a decodable chat, for the coroutine-scheduling
counterexample. -/
def c4Frame : InFrame :=
  { opcode := Opcode.NOTIF_CHAT
    message := none, fileId := none, videoId := none
    reactChatId := none, reactMessageId := none, chat := some 1 }

/-- A handler set with a coroutine-returning chat-update handler. -/
def c4Config : HandlerConfig :=
  { requiresAck := false
    onRawReceive := []
    onMessage := []
    onMessageEdit := []
    onMessageDelete := []
    onReactionChange := []
    onChatUpdate := [fun _ => HandlerResult.coroutine false] }

/-- A handler set with one handler in each message category (the edit
handler carries an always-true filter). -/
def c8Config : HandlerConfig :=
  { requiresAck := false
    onRawReceive := []
    onMessage := [{ filter := none, run := fun _ => HandlerResult.value }]
    onMessageEdit :=
      [{ filter := some fun _ => true, run := fun _ => HandlerResult.value }]
    onMessageDelete := [{ filter := none, run := fun _ => HandlerResult.value }]
    onReactionChange := []
    onChatUpdate := [] }

/-- An EDITED-status message and its NOTIF_MESSAGE frame. -/
def c8MsgE : Message :=
  { chat_id := none, id := none, status := some MessageStatus.EDITED }

/-- NOTIF_MESSAGE frame decoding to `c8MsgE`. -/
def c8FrameE : InFrame :=
  { opcode := Opcode.NOTIF_MESSAGE, message := some c8MsgE
    fileId := none, videoId := none
    reactChatId := none, reactMessageId := none, chat := none }

/-- A status-less message and its NOTIF_MESSAGE frame. -/
def c8MsgN : Message := { chat_id := none, id := none, status := none }

/-- NOTIF_MESSAGE frame decoding to `c8MsgN`. -/
def c8FrameN : InFrame :=
  { opcode := Opcode.NOTIF_MESSAGE, message := some c8MsgN
    fileId := none, videoId := none
    reactChatId := none, reactMessageId := none, chat := none }

/-- A REMOVED-status message and its NOTIF_MESSAGE frame. -/
def c8MsgR : Message :=
  { chat_id := none, id := none, status := some MessageStatus.REMOVED }

/-- NOTIF_MESSAGE frame decoding to `c8MsgR`. -/
def c8FrameR : InFrame :=
  { opcode := Opcode.NOTIF_MESSAGE, message := some c8MsgR
    fileId := none, videoId := none
    reactChatId := none, reactMessageId := none, chat := none }

/-! ## Helper lemmas -/

theorem make_messages_seq_map (k : Nat) (reqs : List (Opcode × Nat × Nat)) :
    (make_messages k reqs).1.map Frame.seq = List.range' (k + 1) reqs.length := by
  induction reqs generalizing k with
  | nil => simp [make_messages]
  | cons r rest ih =>
    obtain ⟨op, p, c⟩ := r
    simp [make_messages, make_message, List.range'_succ, ih]

theorem dictGet_resolveSeq_self (pending : List (Int × PendingFuture))
    (s : Int) (d : Nat) (f : PendingFuture) (hf : dictGet pending s = some f) :
    dictGet (resolveSeq pending s d) s = some ⟨FutureState.resolved d⟩ := by
  induction pending with
  | nil => simp [dictGet] at hf
  | cons kf rest ih =>
    obtain ⟨k, g⟩ := kf
    rw [resolveSeq]
    by_cases hk : k = s
    · rw [if_pos hk]
      simp [dictGet, hk]
    · rw [if_neg hk]
      simp only [dictGet] at hf ⊢
      rw [if_neg hk] at hf ⊢
      exact ih hf

theorem dictGet_resolveSeq_ne (pending : List (Int × PendingFuture))
    (s : Int) (d : Nat) (k : Int) (hk : k ≠ s) :
    dictGet (resolveSeq pending s d) k = dictGet pending k := by
  induction pending with
  | nil => simp [resolveSeq, dictGet]
  | cons kf rest ih =>
    obtain ⟨k', g⟩ := kf
    rw [resolveSeq]
    by_cases hks : k' = s
    · have hkk : k' ≠ k := by
        intro h
        exact hk (h ▸ hks)
      rw [if_pos hks]
      simp only [dictGet]
      rw [if_neg hkk, if_neg hkk]
      exact ih
    · rw [if_neg hks]
      simp only [dictGet]
      by_cases hkk : k' = k
      · rw [if_pos hkk, if_pos hkk]
      · rw [if_neg hkk, if_neg hkk]
        exact ih

theorem resolveSeq_length (pending : List (Int × PendingFuture))
    (s : Int) (d : Nat) : (resolveSeq pending s d).length = pending.length := by
  induction pending with
  | nil => rfl
  | cons kf rest ih =>
    obtain ⟨k, g⟩ := kf
    simp [resolveSeq, ih]

theorem invokeHandler_invoked_mem (cat : HandlerCat) (idx : Nat)
    (r : HandlerResult) (aw : Bool) :
    Effect.invoked cat idx ∈ (invokeHandler cat idx r aw).1 := by
  cases r <;> cases aw <;> simp [invokeHandler]

theorem catchLog_mem (cat : HandlerCat) (idx : Nat) (r : List Effect × Bool)
    (e : Effect) (h : e ∈ r.1) : e ∈ catchLog cat idx r := by
  cases hr : r.2 <;> simp [catchLog, hr, h]

theorem runCaughtHandlers_invoked (cat : HandlerCat) (idx j : Nat)
    (results : List HandlerResult) (hj : j < results.length) :
    Effect.invoked cat (idx + j) ∈ runCaughtHandlers cat idx results := by
  induction results generalizing idx j with
  | nil => simp at hj
  | cons r rest ih =>
    cases j with
    | zero =>
      simp only [runCaughtHandlers, Nat.add_zero]
      exact List.mem_append_left _
        (catchLog_mem cat idx _ _ (invokeHandler_invoked_mem cat idx r true))
    | succ j' =>
      simp only [runCaughtHandlers]
      apply List.mem_append_right
      have h2 : idx + (j' + 1) = (idx + 1) + j' := by omega
      rw [h2]
      exact ih (idx + 1) j' (by simpa using hj)

theorem runCaughtHandlers_no_spawn (cat : HandlerCat) (idx : Nat)
    (results : List HandlerResult) (c : HandlerCat) (i : Nat) :
    Effect.spawnedTask c i ∉ runCaughtHandlers cat idx results := by
  induction results generalizing idx with
  | nil => simp [runCaughtHandlers]
  | cons r rest ih =>
    simp only [runCaughtHandlers, List.mem_append]
    intro h
    rcases h with h1 | h2
    · cases r with
      | value => simp [catchLog, invokeHandler] at h1
      | raises => simp [catchLog, invokeHandler] at h1
      | coroutine b => cases b <;> simp [catchLog, invokeHandler] at h1
    · exact ih (idx + 1) h2

theorem runCaughtHandlers_awaited (cat : HandlerCat) (idx k : Nat)
    (results : List HandlerResult) (b : Bool)
    (hk : results.get? k = some (HandlerResult.coroutine b)) :
    Effect.awaitedInline cat (idx + k) ∈ runCaughtHandlers cat idx results := by
  induction results generalizing idx k with
  | nil => simp at hk
  | cons r rest ih =>
    cases k with
    | zero =>
      simp only [List.get?] at hk
      injection hk with hk
      subst hk
      simp only [runCaughtHandlers, Nat.add_zero]
      apply List.mem_append_left
      cases b <;> simp [catchLog, invokeHandler]
    | succ k' =>
      simp only [runCaughtHandlers]
      apply List.mem_append_right
      have h2 : idx + (k' + 1) = (idx + 1) + k' := by omega
      rw [h2]
      exact ih (idx + 1) k' (by simpa using hk)

theorem invokeHandler_invoked_eq (cat : HandlerCat) (idx : Nat)
    (r : HandlerResult) (aw : Bool) (c : HandlerCat) (j : Nat)
    (hmem : Effect.invoked c j ∈ (invokeHandler cat idx r aw).1) :
    c = cat ∧ j = idx := by
  cases r <;> cases aw <;> simp [invokeHandler] at hmem <;> exact hmem

theorem invokeHandler_no_awaited (cat : HandlerCat) (idx : Nat)
    (r : HandlerResult) (c : HandlerCat) (i : Nat) :
    Effect.awaitedInline c i ∉ (invokeHandler cat idx r false).1 := by
  cases r <;> simp [invokeHandler]

theorem process_message_handler_spawns (cat : HandlerCat) (idx : Nat)
    (h : MessageHandler) (msg : Message) (b : Bool)
    (hp : filterPasses h msg = true)
    (hr : h.run msg = HandlerResult.coroutine b) :
    process_message_handler cat idx h msg =
      ([Effect.invoked cat idx, Effect.spawnedTask cat idx], false) := by
  cases hf : h.filter with
  | none => simp [process_message_handler, hf, hr, invokeHandler]
  | some f =>
    have hfm : f msg = true := by simpa [filterPasses, hf] using hp
    simp [process_message_handler, hf, hfm, hr, invokeHandler]

theorem process_message_handler_no_awaited (cat : HandlerCat) (idx : Nat)
    (h : MessageHandler) (msg : Message) (c : HandlerCat) (i : Nat) :
    Effect.awaitedInline c i ∉ (process_message_handler cat idx h msg).1 := by
  cases hf : h.filter with
  | none =>
    simp only [process_message_handler, hf]
    exact invokeHandler_no_awaited cat idx (h.run msg) c i
  | some f =>
    simp only [process_message_handler, hf]
    by_cases hfm : f msg = true
    · rw [if_pos hfm]
      exact invokeHandler_no_awaited cat idx (h.run msg) c i
    · rw [if_neg hfm]
      simp

theorem process_message_handler_invoked (cat : HandlerCat) (idx : Nat)
    (h : MessageHandler) (msg : Message) (c : HandlerCat) (j : Nat)
    (hmem : Effect.invoked c j ∈ (process_message_handler cat idx h msg).1) :
    c = cat ∧ j = idx ∧ filterPasses h msg = true := by
  cases hf : h.filter with
  | none =>
    simp only [process_message_handler, hf] at hmem
    have := invokeHandler_invoked_eq cat idx (h.run msg) false c j hmem
    exact ⟨this.1, this.2, by simp [filterPasses, hf]⟩
  | some f =>
    simp only [process_message_handler, hf] at hmem
    by_cases hfm : f msg = true
    · rw [if_pos hfm] at hmem
      have := invokeHandler_invoked_eq cat idx (h.run msg) false c j hmem
      exact ⟨this.1, this.2, by simp [filterPasses, hf, hfm]⟩
    · rw [if_neg hfm] at hmem
      simp at hmem

theorem runMessageHandlers_invoked (cat : HandlerCat) (idx : Nat)
    (handlers : List MessageHandler) (msg : Message) (c : HandlerCat) (j : Nat)
    (hmem : Effect.invoked c j ∈ (runMessageHandlers cat idx handlers msg).1) :
    c = cat ∧ ∃ k h, handlers.get? k = some h ∧ j = idx + k ∧
      filterPasses h msg = true := by
  induction handlers generalizing idx with
  | nil => simp [runMessageHandlers] at hmem
  | cons h0 rest ih =>
    simp only [runMessageHandlers] at hmem
    by_cases hrz : (process_message_handler cat idx h0 msg).2 = true
    · rw [if_pos hrz] at hmem
      have := process_message_handler_invoked cat idx h0 msg c j hmem
      exact ⟨this.1, 0, h0, rfl, by omega, this.2.2⟩
    · rw [if_neg hrz] at hmem
      have hmem' : Effect.invoked c j ∈
          (process_message_handler cat idx h0 msg).1 ++
            (runMessageHandlers cat (idx + 1) rest msg).1 := hmem
      rcases List.mem_append.mp hmem' with h1 | h2
      · have := process_message_handler_invoked cat idx h0 msg c j h1
        exact ⟨this.1, 0, h0, rfl, by omega, this.2.2⟩
      · rcases ih (idx + 1) h2 with ⟨hc, k, hh, hget, hjk, hfp⟩
        exact ⟨hc, k + 1, hh, by simpa using hget, by omega, hfp⟩

theorem ackEffects_no_invoked (b : Bool) (msg : Message) (c : HandlerCat)
    (j : Nat) : Effect.invoked c j ∉ ackEffects b msg := by
  rcases hc : msg.chat_id with _ | x
  · simp [ackEffects, hc]
  · rcases hi : msg.id with _ | y
    · simp [ackEffects, hc, hi]
    · simp only [ackEffects, hc, hi]
      split <;> simp

theorem foldl_syncChatEntry (es : List RawChatEntry) (st : SessionState) :
    es.foldl syncChatEntry st =
      { st with
          dialogs := st.dialogs ++ dialogParts es
          chats := st.chats ++ chatParts es
          channels := st.channels ++ channelParts es } := by
  induction es generalizing st with
  | nil => simp [dialogParts, chatParts, channelParts]
  | cons e rest ih =>
    obtain ⟨kind, dec⟩ := e
    cases kind <;> cases dec <;>
      simp [syncChatEntry, dialogParts, chatParts, channelParts, ih,
        List.filterMap_cons]

theorem foldl_syncContactEntry (us : List UserDecode) (st : SessionState) :
    us.foldl syncContactEntry st =
      { st with contacts := st.contacts ++ contactParts us } := by
  induction us generalizing st with
  | nil => simp [contactParts]
  | cons u rest ih =>
    cases u <;> simp [syncContactEntry, contactParts, ih, List.filterMap_cons]

theorem dictGet_filter_self {α : Type} (xs : List (Int × α)) (i : Int) :
    dictGet (xs.filter fun kf => kf.1 != i) i = none := by
  induction xs with
  | nil => rfl
  | cons kf rest ih =>
    obtain ⟨k, v⟩ := kf
    by_cases hk : k = i
    · simpa [List.filter_cons, hk] using ih
    · simpa [List.filter_cons, hk, dictGet] using ih

theorem dictGet_filter_ne {α : Type} (xs : List (Int × α)) (i j : Int)
    (hij : j ≠ i) :
    dictGet (xs.filter fun kf => kf.1 != i) j = dictGet xs j := by
  induction xs with
  | nil => rfl
  | cons kf rest ih =>
    obtain ⟨k, v⟩ := kf
    by_cases hk : k = i
    · subst hk
      simp only [List.filter_cons, bne_self_eq_false, Bool.false_eq_true,
        if_false, dictGet]
      rw [if_neg (Ne.symm hij)]
      exact ih
    · simp only [List.filter_cons]
      rw [if_pos (by simpa using hk)]
      simp only [dictGet]
      by_cases hkj : k = j
      · rw [if_pos hkj, if_pos hkj]
      · rw [if_neg hkj, if_neg hkj]
        exact ih

theorem dictGet_none_filter {α : Type} (xs : List (Int × α))
    (p : Int × α → Bool) (i : Int) (h : dictGet xs i = none) :
    dictGet (xs.filter p) i = none := by
  induction xs with
  | nil => rfl
  | cons kf rest ih =>
    obtain ⟨k, v⟩ := kf
    simp only [dictGet] at h
    by_cases hk : k = i
    · rw [if_pos hk] at h
      exact absurd h (by simp)
    · rw [if_neg hk] at h
      by_cases hp : p (k, v) = true
      · simp only [List.filter_cons, hp, if_true, dictGet]
        rw [if_neg hk]
        exact ih h
      · simp only [List.filter_cons, hp]
        simp only [Bool.false_eq_true, if_false]
        exact ih h

theorem uploadKeyStep_fst_self (w : List (Int × UploadFuture)) (i : Int) :
    dictGet (uploadKeyStep w (some i)).1 i = none := by
  simp only [uploadKeyStep]
  cases hg : dictGet w i with
  | none => exact dictGet_filter_self w i
  | some fut => exact dictGet_filter_self w i

theorem uploadKeyStep_fst_ne (w : List (Int × UploadFuture)) (io : Option Int)
    (j : Int) (hne : io ≠ some j) :
    dictGet (uploadKeyStep w io).1 j = dictGet w j := by
  cases io with
  | none => rfl
  | some k =>
    have hkj : j ≠ k := fun h => hne (by rw [h])
    simp only [uploadKeyStep]
    cases hg : dictGet w k with
    | none => exact dictGet_filter_ne w k j hkj
    | some fut => exact dictGet_filter_ne w k j hkj

theorem uploadKeyStep_fst_none (w : List (Int × UploadFuture))
    (io : Option Int) (j : Int) (h : dictGet w j = none) :
    dictGet (uploadKeyStep w io).1 j = none := by
  cases io with
  | none => exact h
  | some k =>
    simp only [uploadKeyStep]
    cases hg : dictGet w k with
    | none => exact dictGet_none_filter w _ j h
    | some fut => exact dictGet_none_filter w _ j h

theorem uploadKeyStep_resolved (w : List (Int × UploadFuture))
    (io : Option Int) (i : Int)
    (h : Effect.waiterResolved i ∈ (uploadKeyStep w io).2) :
    io = some i ∧ ∃ fut, dictGet w i = some fut ∧ fut.done = false := by
  cases io with
  | none => simp [uploadKeyStep] at h
  | some k =>
    simp only [uploadKeyStep] at h
    cases hg : dictGet w k with
    | none =>
      rw [hg] at h
      simp at h
    | some fut =>
      rw [hg] at h
      by_cases hd : fut.done = true
      · simp [hd] at h
      · have hd' : fut.done = false := by
          cases hfd : fut.done
          · rfl
          · exact absurd hfd hd
        simp only [hd', Bool.false_eq_true, if_false, List.mem_singleton,
          Effect.waiterResolved.injEq] at h
        subst h
        exact ⟨rfl, fut, hg, hd'⟩

/-! ## Claim theorems -/

/-- C5: frame construction assigns sequence numbers that are unique and
strictly increasing over the connection lifetime — building N frames in
succession from counter value k-1 yields exactly the consecutive sequence
numbers k, k+1, …, k+N-1 (here k = seq0 + 1), with no repeats. -/
theorem claim_C5_sequence_numbers (seq0 : Nat) (reqs : List (Opcode × Nat × Nat)) :
    (make_messages seq0 reqs).1.map Frame.seq = List.range' (seq0 + 1) reqs.length ∧
    ((make_messages seq0 reqs).1.map Frame.seq).Nodup ∧
    ((make_messages seq0 reqs).1.map Frame.seq).Pairwise (· < ·) := by
  refine ⟨make_messages_seq_map seq0 reqs, ?_, ?_⟩
  · rw [make_messages_seq_map]
    exact List.nodup_range' (seq0 + 1) reqs.length
  · rw [make_messages_seq_map]
    exact List.pairwise_lt_range' (seq0 + 1) reqs.length

/-- C6: an inbound frame carrying integer sequence S fulfills exactly the
pending entry registered under S and reports a match; when no entry with
key S exists, or the entry is already done, the correlation table is left
untouched and no match is reported (the frame goes on to the dispatcher). -/
theorem claim_C6_correlation (s : Int) (d : Nat)
    (pending : List (Int × PendingFuture)) :
    (∀ f, dictGet pending s = some f → f.done = false →
      handle_pending (some s) d pending = (true, resolveSeq pending s d) ∧
      dictGet (resolveSeq pending s d) s = some ⟨FutureState.resolved d⟩ ∧
      (∀ k, k ≠ s → dictGet (resolveSeq pending s d) k = dictGet pending k) ∧
      (resolveSeq pending s d).length = pending.length) ∧
    (dictGet pending s = none →
      handle_pending (some s) d pending = (false, pending)) ∧
    (∀ f, dictGet pending s = some f → f.done = true →
      handle_pending (some s) d pending = (false, pending)) := by
  refine ⟨?_, ?_, ?_⟩
  · intro f hf hdone
    refine ⟨?_, dictGet_resolveSeq_self pending s d f hf,
      fun k hk => dictGet_resolveSeq_ne pending s d k hk, ?_⟩
    · simp [handle_pending, hf, hdone]
    · exact resolveSeq_length pending s d
  · intro hf
    simp [handle_pending, hf]
  · intro f hf hdone
    simp [handle_pending, hf, hdone]

/-- C6 witness: a concrete pending table with an un-done entry under 7 and
a done entry under 3; the frame with seq 7 is matched, the table entry 7 is
fulfilled, entry 3 is untouched; seq 9 (absent) and seq 3 (already done)
are no-ops reported unmatched. -/
theorem claim_C6_correlation_witness :
    handle_pending (some 7) 42
        [(3, ⟨FutureState.resolved 0⟩), (7, ⟨FutureState.pending⟩)] =
      (true, [(3, ⟨FutureState.resolved 0⟩), (7, ⟨FutureState.resolved 42⟩)]) ∧
    handle_pending (some 9) 42
        [(3, ⟨FutureState.resolved 0⟩), (7, ⟨FutureState.pending⟩)] =
      (false, [(3, ⟨FutureState.resolved 0⟩), (7, ⟨FutureState.pending⟩)]) ∧
    handle_pending (some 3) 42
        [(3, ⟨FutureState.resolved 0⟩), (7, ⟨FutureState.pending⟩)] =
      (false, [(3, ⟨FutureState.resolved 0⟩), (7, ⟨FutureState.pending⟩)]) := by
  refine ⟨?_, ?_, ?_⟩
  · exact ((claim_C6_correlation 7 42
      [(3, ⟨FutureState.resolved 0⟩), (7, ⟨FutureState.pending⟩)]).1
      ⟨FutureState.pending⟩ (by decide) (by decide)).1
  · exact (claim_C6_correlation 9 42
      [(3, ⟨FutureState.resolved 0⟩), (7, ⟨FutureState.pending⟩)]).2.1 (by decide)
  · exact (claim_C6_correlation 3 42
      [(3, ⟨FutureState.resolved 0⟩), (7, ⟨FutureState.pending⟩)]).2.2
      ⟨FutureState.resolved 0⟩ (by decide) (by decide)

/-- C7: after `_cleanup_client`, every previously-pending entry that was
not yet done has been fulfilled with the not-connected failure (done
entries are left as they were), the pending map is empty and the connected
flag is false; running the cleanup again from the resulting state leaves
the state unchanged, cancels nothing and fails nothing (and, the model
being total, raises no error). -/
theorem claim_C7_cleanup_idempotent (st : ClientState) :
    (∀ k f, (k, f) ∈ st.pending → f.done = false →
      (k, (⟨FutureState.failedNotConnected⟩ : PendingFuture)) ∈
        (cleanup_client st).failedFutures) ∧
    (∀ k f, (k, f) ∈ st.pending → f.done = true →
      (k, f) ∈ (cleanup_client st).failedFutures) ∧
    (cleanup_client st).state.pending = [] ∧
    (cleanup_client st).state.is_connected = false ∧
    cleanup_client (cleanup_client st).state =
      { state := (cleanup_client st).state
        cancelledTasks := []
        failedFutures := [] } := by
  refine ⟨?_, ?_, rfl, rfl, rfl⟩
  · intro k f hmem hdone
    have : (k, failPendingFuture f) ∈ (cleanup_client st).failedFutures := by
      simp only [cleanup_client]
      exact List.mem_map.mpr ⟨(k, f), hmem, rfl⟩
    simpa [failPendingFuture, hdone] using this
  · intro k f hmem hdone
    have : (k, failPendingFuture f) ∈ (cleanup_client st).failedFutures := by
      simp only [cleanup_client]
      exact List.mem_map.mpr ⟨(k, f), hmem, rfl⟩
    simpa [failPendingFuture, hdone] using this

/-- C7 witness: a concrete client with one resolved and one un-done pending
entry; the un-done one gets the not-connected failure, the resolved one is
untouched, and the second cleanup is the identity on the cleaned state. -/
theorem claim_C7_cleanup_idempotent_witness :
    (5, (⟨FutureState.failedNotConnected⟩ : PendingFuture)) ∈
      (cleanup_client
        { background_tasks := [1], recv_task := some 2, outgoing_task := none
          pending := [(4, ⟨FutureState.resolved 9⟩), (5, ⟨FutureState.pending⟩)]
          ws := true, is_connected := true }).failedFutures ∧
    (4, (⟨FutureState.resolved 9⟩ : PendingFuture)) ∈
      (cleanup_client
        { background_tasks := [1], recv_task := some 2, outgoing_task := none
          pending := [(4, ⟨FutureState.resolved 9⟩), (5, ⟨FutureState.pending⟩)]
          ws := true, is_connected := true }).failedFutures := by
  constructor
  · exact (claim_C7_cleanup_idempotent
      { background_tasks := [1], recv_task := some 2, outgoing_task := none
        pending := [(4, ⟨FutureState.resolved 9⟩), (5, ⟨FutureState.pending⟩)]
        ws := true, is_connected := true }).1 5 ⟨FutureState.pending⟩
      (by decide) (by decide)
  · exact (claim_C7_cleanup_idempotent
      { background_tasks := [1], recv_task := some 2, outgoing_task := none
        pending := [(4, ⟨FutureState.resolved 9⟩), (5, ⟨FutureState.pending⟩)]
        ws := true, is_connected := true }).2.1 4 ⟨FutureState.resolved 9⟩
      (by decide) (by decide)

/-- C2: (1) with the breaker closed and the consecutive-error counter at 10,
a failing send (the 11th consecutive failure) trips the breaker: the
message that failed is re-enqueued at the tail of the queue with its
retry counter untouched, the counter becomes 11 and the failure time is
recorded; (2) while the breaker is open and at most 60 seconds have passed
since the last recorded error, an iteration sleeps 5 seconds and re-checks
without dequeuing or sending (state unchanged); (3) once strictly more than
60 seconds have elapsed, the breaker closes (counter reset to 0) and the
iteration proceeds exactly as with a closed breaker; (4) with the breaker
closed and a message queued, every iteration performs a send attempt. -/
theorem claim_C2_circuit_breaker (sendResult : OutgoingMessage → Option PyError)
    (now : Nat) (st : LoopState) (m : OutgoingMessage)
    (rest : List OutgoingMessage) (e : PyError) :
    (st.circuit_breaker = false → st.error_count = 10 → st.queue = m :: rest →
      sendResult m = some e →
      outgoingStep sendResult now st =
        (LoopEvent.breakerTrip m,
         { queue := rest ++ [m], error_count := 11, last_error_time := now
           circuit_breaker := true })) ∧
    (st.circuit_breaker = true → now - st.last_error_time ≤ 60 →
      outgoingStep sendResult now st = (LoopEvent.breakerWait 5, st)) ∧
    (st.circuit_breaker = true → now - st.last_error_time > 60 →
      outgoingStep sendResult now st =
        outgoingStep sendResult now
          { st with circuit_breaker := false, error_count := 0 }) ∧
    (st.circuit_breaker = false → st.queue = m :: rest →
      (outgoingStep sendResult now st).1.isSendAttempt = true) := by
  obtain ⟨q, ec, lt, cb⟩ := st
  refine ⟨?_, ?_, ?_, ?_⟩
  · intro hcb hec hq hsend
    simp only at hcb hec hq
    subst hcb
    subst hec
    subst hq
    simp [outgoingStep, hsend]
  · intro hcb h60
    simp only at hcb h60
    subst hcb
    have hn : ¬(now - lt > 60) := by omega
    simp [outgoingStep, hn]
  · intro hcb h60
    simp only at hcb h60
    subst hcb
    simp [outgoingStep, h60]
  · intro hcb hq
    simp only at hcb hq
    subst hcb
    subst hq
    cases hsr : sendResult m with
    | none => simp [outgoingStep, hsr, LoopEvent.isSendAttempt]
    | some e' =>
      simp only [outgoingStep, false_and, if_false, Bool.false_eq_true]
      simp only [hsr]
      by_cases h10 : ec + 1 > 10
      · simp [h10, LoopEvent.isSendAttempt]
      · by_cases hrc : m.retry_count < m.max_retries
        · simp [h10, hrc, LoopEvent.isSendAttempt]
        · simp [h10, hrc, LoopEvent.isSendAttempt]

/-- C2 witness: the four parts of the circuit-breaker theorem evaluated on
concrete states — the 11th failure at time 100 trips and re-enqueues; at
time 130 (30s elapsed) the worker sleeps 5s without dequeuing; at time 161
(61s elapsed) the iteration behaves as with a closed breaker; with the
breaker closed a queued message gets a send attempt. -/
theorem claim_C2_circuit_breaker_witness :
    outgoingStep (fun _ => some PyError.otherError) 100
        { queue := [c2msg], error_count := 10, last_error_time := 0
          circuit_breaker := false } =
      (LoopEvent.breakerTrip c2msg,
       { queue := [c2msg], error_count := 11, last_error_time := 100
         circuit_breaker := true }) ∧
    outgoingStep (fun _ => some PyError.otherError) 130
        { queue := [c2msg], error_count := 11, last_error_time := 100
          circuit_breaker := true } =
      (LoopEvent.breakerWait 5,
       { queue := [c2msg], error_count := 11, last_error_time := 100
         circuit_breaker := true }) ∧
    outgoingStep (fun _ => some PyError.otherError) 161
        { queue := [c2msg], error_count := 11, last_error_time := 100
          circuit_breaker := true } =
      outgoingStep (fun _ => some PyError.otherError) 161
        { queue := [c2msg], error_count := 0, last_error_time := 100
          circuit_breaker := false } ∧
    (outgoingStep (fun _ => some PyError.otherError) 100
        { queue := [c2msg], error_count := 10, last_error_time := 0
          circuit_breaker := false }).1.isSendAttempt = true := by
  refine ⟨?_, ?_, ?_, ?_⟩
  · exact (claim_C2_circuit_breaker (fun _ => some PyError.otherError) 100
      { queue := [c2msg], error_count := 10, last_error_time := 0
        circuit_breaker := false } c2msg [] PyError.otherError).1
      rfl rfl rfl rfl
  · exact (claim_C2_circuit_breaker (fun _ => some PyError.otherError) 130
      { queue := [c2msg], error_count := 11, last_error_time := 100
        circuit_breaker := true } c2msg [] PyError.otherError).2.1
      rfl (by decide)
  · exact (claim_C2_circuit_breaker (fun _ => some PyError.otherError) 161
      { queue := [c2msg], error_count := 11, last_error_time := 100
        circuit_breaker := true } c2msg [] PyError.otherError).2.2.1
      rfl (by decide)
  · exact (claim_C2_circuit_breaker (fun _ => some PyError.otherError) 100
      { queue := [c2msg], error_count := 10, last_error_time := 0
        circuit_breaker := false } c2msg [] PyError.otherError).2.2.2
      rfl rfl

/-- C3 (at the failing input): a message with maxRetries = 3 whose every
send raises the builtin TimeoutError is attempted exactly 4 times
(1 initial + 3 retries) and then dropped — that part of the claim holds —
but the delay slept between attempts is 1 second each time, not the claimed
5 seconds: because CPython's builtin TimeoutError is a subclass of OSError,
`isinstance(error, (ConnectionError, OSError))` matches first and
`_get_retry_delay` returns 1.0 for every retry count, leaving its
`elif isinstance(error, TimeoutError): return 5.0` branch unreachable.
The remaining delay classes behave as claimed: 1s for connection/OS-level
errors, 2s for the not-connected error, 2^retryCount for others. -/
theorem claim_C3_retry_policy_timeout_delay :
    (runLoop (fun _ => some PyError.timeoutError) [1, 2, 3, 4]
        { queue := [c3msg], error_count := 0, last_error_time := 0
          circuit_breaker := false }).1 =
      [LoopEvent.retryScheduled c3msg 1,
       LoopEvent.retryScheduled { c3msg with retry_count := 1 } 1,
       LoopEvent.retryScheduled { c3msg with retry_count := 2 } 1,
       LoopEvent.dropFailed { c3msg with retry_count := 3 }] ∧
    ((runLoop (fun _ => some PyError.timeoutError) [1, 2, 3, 4]
        { queue := [c3msg], error_count := 0, last_error_time := 0
          circuit_breaker := false }).1.countP LoopEvent.isSendAttempt = 4) ∧
    ((runLoop (fun _ => some PyError.timeoutError) [1, 2, 3, 4]
        { queue := [c3msg], error_count := 0, last_error_time := 0
          circuit_breaker := false }).2.queue = []) ∧
    (∀ r, get_retry_delay PyError.timeoutError r = 1) ∧
    (∀ r, get_retry_delay PyError.connectionError r = 1) ∧
    (∀ r, get_retry_delay PyError.osError r = 1) ∧
    (∀ r, get_retry_delay PyError.webSocketNotConnectedError r = 2) ∧
    (∀ r, get_retry_delay PyError.otherError r = 2 ^ r) := by
  refine ⟨by decide, by decide, by decide, fun r => rfl, fun r => rfl,
    fun r => rfl, fun r => rfl, fun r => rfl⟩

/-- C1 counterexample: the claim that every pipeline stage catches handler
exceptions is false — a synchronously raising new-message handler raises
through `_process_message_handler` (which has no try/except) out of
`_handle_message_notifications` and out of `_dispatch_incoming`, and the
registered handler after it is never invoked. -/
theorem claim_C1_counterexample :
    (dispatch_incoming c1Config [] c1Frame).raised = true ∧
    Effect.invoked HandlerCat.onMessage 1 ∉
      (dispatch_incoming c1Config [] c1Frame).effects := by
  have he : (dispatch_incoming c1Config [] c1Frame).effects =
      [Effect.invoked HandlerCat.onMessage 0] := rfl
  exact ⟨rfl, by rw [he]; simp⟩

/-- C1 amended: the raw-receive, reaction-change and chat-update stages
each wrap every handler call in its own try/except, so every registered
handler in those stages is invoked no matter what earlier handlers raised
(their stage never raises); an exception propagates out of
`_dispatch_incoming` exactly when the message-notification stage raises —
which a synchronous message-handler exception does, since
`_process_message_handler` has no try/except (asynchronous handler
exceptions stay inside their supervised task). -/
theorem claim_C1_amended_catching_stages (cfg : HandlerConfig)
    (waiters : List (Int × UploadFuture)) (data : InFrame)
    (cid mid : Int) (ch : Nat) :
    (∀ j, j < cfg.onRawReceive.length →
      Effect.invoked HandlerCat.rawReceive j ∈
        handle_raw_receive cfg.onRawReceive data) ∧
    (data.opcode = Opcode.NOTIF_MSG_REACTIONS_CHANGED →
      data.reactChatId = some cid → data.reactMessageId = some mid →
      cid ≠ 0 → mid ≠ 0 →
      ∀ j, j < cfg.onReactionChange.length →
        Effect.invoked HandlerCat.reactionChange j ∈
          handle_reactions cfg.onReactionChange data) ∧
    (data.opcode = Opcode.NOTIF_CHAT → data.chat = some ch →
      ∀ j, j < cfg.onChatUpdate.length →
        Effect.invoked HandlerCat.chatUpdate j ∈
          handle_chat_updates cfg.onChatUpdate data) ∧
    (dispatch_incoming cfg waiters data).raised =
      (handle_message_notifications cfg data).2 := by
  refine ⟨?_, ?_, ?_, ?_⟩
  · intro j hj
    have := runCaughtHandlers_invoked HandlerCat.rawReceive 0 j
      (cfg.onRawReceive.map fun h => h data) (by simpa using hj)
    simpa [handle_raw_receive] using this
  · intro hop hcid hmid hc0 hm0 j hj
    have := runCaughtHandlers_invoked HandlerCat.reactionChange 0 j
      (cfg.onReactionChange.map fun h => h mid cid) (by simpa using hj)
    simp only [handle_reactions, hop, hcid, hmid]
    simpa [hc0, hm0] using this
  · intro hop hch j hj
    have := runCaughtHandlers_invoked HandlerCat.chatUpdate 0 j
      (cfg.onChatUpdate.map fun h => h ch) (by simpa using hj)
    simpa [handle_chat_updates, hop, hch] using this
  · by_cases h : (handle_message_notifications cfg data).2 = true
    · simp [dispatch_incoming, h]
    · simp [dispatch_incoming, h]

/-- C1 amended witness: with a raising raw-receive handler and a raising
reaction handler registered first, the handlers after them are still
invoked; with a raising chat-update handler the stage still invokes it and
does not raise; and the dispatcher's raised flag equals the message stage's
(false here, no message handlers registered). -/
theorem claim_C1_amended_catching_stages_witness :
    Effect.invoked HandlerCat.rawReceive 1 ∈
      handle_raw_receive c1wConfig.onRawReceive c1wReactFrame ∧
    Effect.invoked HandlerCat.reactionChange 1 ∈
      handle_reactions c1wConfig.onReactionChange c1wReactFrame ∧
    Effect.invoked HandlerCat.chatUpdate 0 ∈
      handle_chat_updates c1wConfig.onChatUpdate c1wChatFrame ∧
    (dispatch_incoming c1wConfig [] c1wReactFrame).raised =
      (handle_message_notifications c1wConfig c1wReactFrame).2 := by
  refine ⟨?_, ?_, ?_, ?_⟩
  · exact (claim_C1_amended_catching_stages c1wConfig [] c1wReactFrame
      5 6 0).1 1 (by simp [c1wConfig])
  · exact (claim_C1_amended_catching_stages c1wConfig [] c1wReactFrame
      5 6 0).2.1 rfl rfl rfl (by decide) (by decide) 1 (by simp [c1wConfig])
  · exact (claim_C1_amended_catching_stages c1wConfig [] c1wChatFrame
      5 6 3).2.2.1 rfl rfl 0 (by simp [c1wConfig])
  · exact (claim_C1_amended_catching_stages c1wConfig [] c1wReactFrame
      5 6 0).2.2.2

/-- C4 counterexample: the claim that coroutine-returning handlers in every
category are scheduled as background tasks is false — a chat-update handler
returning a coroutine is awaited inline inside the stage
(`if asyncio.iscoroutine(result): await result`), and no task is
spawned. -/
theorem claim_C4_counterexample :
    Effect.awaitedInline HandlerCat.chatUpdate 0 ∈
      (dispatch_incoming c4Config [] c4Frame).effects ∧
    Effect.spawnedTask HandlerCat.chatUpdate 0 ∉
      (dispatch_incoming c4Config [] c4Frame).effects := by
  have he : (dispatch_incoming c4Config [] c4Frame).effects =
      [Effect.invoked HandlerCat.chatUpdate 0,
       Effect.awaitedInline HandlerCat.chatUpdate 0] := rfl
  exact ⟨by rw [he]; simp, by rw [he]; simp⟩

/-- C4 amended: only the message-handler path (`_process_message_handler`,
used for new/edit/delete message handlers) hands a coroutine result to
`_create_safe_task` — such a handler contributes exactly an invocation and
a spawned supervised task, never an inline await, and never raises into the
pipeline; the raw-receive, reaction-change and chat-update stages never
spawn a task and instead await a coroutine result inline within the
stage. -/
theorem claim_C4_amended_scheduling (cat : HandlerCat) (idx : Nat)
    (h : MessageHandler) (msg : Message) (b : Bool)
    (results : List HandlerResult) (c : HandlerCat) (i j k : Nat) :
    (filterPasses h msg = true → h.run msg = HandlerResult.coroutine b →
      process_message_handler cat idx h msg =
        ([Effect.invoked cat idx, Effect.spawnedTask cat idx], false)) ∧
    (Effect.awaitedInline c i ∉ (process_message_handler cat idx h msg).1) ∧
    (Effect.spawnedTask c i ∉ runCaughtHandlers cat j results) ∧
    (results.get? k = some (HandlerResult.coroutine b) →
      Effect.awaitedInline cat (j + k) ∈ runCaughtHandlers cat j results) := by
  refine ⟨?_, ?_, ?_, ?_⟩
  · intro hp hr
    exact process_message_handler_spawns cat idx h msg b hp hr
  · exact process_message_handler_no_awaited cat idx h msg c i
  · exact runCaughtHandlers_no_spawn cat j results c i
  · intro hk
    exact runCaughtHandlers_awaited cat j k results b hk

/-- C4 amended witness: a filterless message handler returning a coroutine
is spawned (and not awaited inline), while a coroutine result in a
catching stage (here at position 0) is awaited inline and no task is
spawned. -/
theorem claim_C4_amended_scheduling_witness :
    process_message_handler HandlerCat.onMessage 0
        { filter := none, run := fun _ => HandlerResult.coroutine false }
        { chat_id := none, id := none, status := none } =
      ([Effect.invoked HandlerCat.onMessage 0,
        Effect.spawnedTask HandlerCat.onMessage 0], false) ∧
    Effect.awaitedInline HandlerCat.chatUpdate 0 ∈
      runCaughtHandlers HandlerCat.chatUpdate 0 [HandlerResult.coroutine false] ∧
    Effect.spawnedTask HandlerCat.chatUpdate 0 ∉
      runCaughtHandlers HandlerCat.chatUpdate 0 [HandlerResult.coroutine false] := by
  refine ⟨?_, ?_, ?_⟩
  · exact (claim_C4_amended_scheduling HandlerCat.onMessage 0
      { filter := none, run := fun _ => HandlerResult.coroutine false }
      { chat_id := none, id := none, status := none } false
      [] HandlerCat.chatUpdate 0 0 0).1 rfl rfl
  · exact (claim_C4_amended_scheduling HandlerCat.chatUpdate 0
      { filter := none, run := fun _ => HandlerResult.coroutine false }
      { chat_id := none, id := none, status := none } false
      [HandlerResult.coroutine false] HandlerCat.chatUpdate 0 0 0).2.2.2 rfl
  · exact (claim_C4_amended_scheduling HandlerCat.chatUpdate 0
      { filter := none, run := fun _ => HandlerResult.coroutine false }
      { chat_id := none, id := none, status := none } false
      [HandlerResult.coroutine false] HandlerCat.chatUpdate 0 0 0).2.2.1

/-- C8: on a NOTIF_MESSAGE frame decoding to a message, every handler
invocation produced by the message-notification stage lies in the category
selected by the message's status — EDITED invokes only edit handlers,
unset status only new-message handlers, REMOVED only delete handlers — and
each invoked handler is one whose optional filter is absent or returns
true for that message (index j names the handler's registration
position). -/
theorem claim_C8_status_routing (cfg : HandlerConfig) (data : InFrame)
    (msg : Message) (hop : data.opcode = Opcode.NOTIF_MESSAGE)
    (hm : data.message = some msg) :
    (msg.status = some MessageStatus.EDITED →
      ∀ c j, Effect.invoked c j ∈ (handle_message_notifications cfg data).1 →
        c = HandlerCat.onMessageEdit ∧
        ∃ h, cfg.onMessageEdit.get? j = some h ∧ filterPasses h msg = true) ∧
    (msg.status = none →
      ∀ c j, Effect.invoked c j ∈ (handle_message_notifications cfg data).1 →
        c = HandlerCat.onMessage ∧
        ∃ h, cfg.onMessage.get? j = some h ∧ filterPasses h msg = true) ∧
    (msg.status = some MessageStatus.REMOVED →
      ∀ c j, Effect.invoked c j ∈ (handle_message_notifications cfg data).1 →
        c = HandlerCat.onMessageDelete ∧
        ∃ h, cfg.onMessageDelete.get? j = some h ∧
          filterPasses h msg = true) := by
  refine ⟨?_, ?_, ?_⟩
  · intro hs c j hmem
    simp only [handle_message_notifications, hop, hm, hs, ne_eq, not_true,
      if_false, List.mem_append, reduceIte] at hmem
    rcases hmem with h1 | h2
    · exact absurd h1 (ackEffects_no_invoked cfg.requiresAck msg c j)
    · rcases runMessageHandlers_invoked HandlerCat.onMessageEdit 0
        cfg.onMessageEdit msg c j h2 with ⟨hc, k, h, hget, hjk, hfp⟩
      have hj : j = k := by omega
      exact ⟨hc, h, hj ▸ hget, hfp⟩
  · intro hs c j hmem
    simp only [handle_message_notifications, hop, hm, hs, ne_eq, not_true,
      if_false, List.mem_append, reduceIte] at hmem
    rcases hmem with h1 | h2
    · exact absurd h1 (ackEffects_no_invoked cfg.requiresAck msg c j)
    · rcases runMessageHandlers_invoked HandlerCat.onMessage 0
        cfg.onMessage msg c j h2 with ⟨hc, k, h, hget, hjk, hfp⟩
      have hj : j = k := by omega
      exact ⟨hc, h, hj ▸ hget, hfp⟩
  · intro hs c j hmem
    simp only [handle_message_notifications, hop, hm, hs, ne_eq, not_true,
      if_false, List.mem_append, reduceIte] at hmem
    rcases hmem with h1 | h2
    · exact absurd h1 (ackEffects_no_invoked cfg.requiresAck msg c j)
    · rcases runMessageHandlers_invoked HandlerCat.onMessageDelete 0
        cfg.onMessageDelete msg c j h2 with ⟨hc, k, h, hget, hjk, hfp⟩
      have hj : j = k := by omega
      exact ⟨hc, h, hj ▸ hget, hfp⟩

/-- C8 witness: with one handler registered per message category, an
EDITED message, a status-less message and a REMOVED message each route
their single produced invocation to the matching category, whose filter
(where present) passes. -/
theorem claim_C8_status_routing_witness :
    (HandlerCat.onMessageEdit = HandlerCat.onMessageEdit ∧
      ∃ h, c8Config.onMessageEdit.get? 0 = some h ∧
        filterPasses h c8MsgE = true) ∧
    (HandlerCat.onMessage = HandlerCat.onMessage ∧
      ∃ h, c8Config.onMessage.get? 0 = some h ∧
        filterPasses h c8MsgN = true) ∧
    (HandlerCat.onMessageDelete = HandlerCat.onMessageDelete ∧
      ∃ h, c8Config.onMessageDelete.get? 0 = some h ∧
        filterPasses h c8MsgR = true) := by
  refine ⟨?_, ?_, ?_⟩
  · exact (claim_C8_status_routing c8Config c8FrameE c8MsgE rfl rfl).1 rfl
      HandlerCat.onMessageEdit 0 (by simp [handle_message_notifications,
        c8Config, c8FrameE, c8MsgE, ackEffects, runMessageHandlers,
        process_message_handler, invokeHandler])
  · exact (claim_C8_status_routing c8Config c8FrameN c8MsgN rfl rfl).2.1 rfl
      HandlerCat.onMessage 0 (by simp [handle_message_notifications,
        c8Config, c8FrameN, c8MsgN, ackEffects, runMessageHandlers,
        process_message_handler, invokeHandler])
  · exact (claim_C8_status_routing c8Config c8FrameR c8MsgR rfl rfl).2.2 rfl
      HandlerCat.onMessageDelete 0 (by simp [handle_message_notifications,
        c8Config, c8FrameR, c8MsgR, ackEffects, runMessageHandlers,
        process_message_handler, invokeHandler])

/-- C9 counterexample: the claim that every per-entry parse failure within
a successful response is logged and skipped is false — the decoder
boundary also signals malformed input by returning a falsy value (the same
`Chat.from_dict` is guarded with `if not chat:` in
`_handle_chat_updates`), and `_sync` appends the decode result unguarded:
a successful response (no error raised to the caller) containing one
CHAT-typed entry whose decode is falsy leaves a null entry in the chats
cache instead of skipping it. -/
theorem claim_C9_counterexample :
    (sync
        (some { error := false
                chats := [{ kind := ChatKind.CHAT
                            decode := ChatDecode.noneResult }]
                contacts := [], profileContact := none })
        { dialogs := [], chats := [], channels := [], contacts := []
          me := none, ws := true, is_connected := true }).2 = false ∧
    (sync
        (some { error := false
                chats := [{ kind := ChatKind.CHAT
                            decode := ChatDecode.noneResult }]
                contacts := [], profileContact := none })
        { dialogs := [], chats := [], channels := [], contacts := []
          me := none, ws := true, is_connected := true }).1.chats =
      [none] := by
  exact ⟨rfl, rfl⟩

/-- C9 amended: a failed LOGIN request (`_send_and_wait` raising) and a
response payload carrying an error field both mark the session
disconnected, drop the socket, leave the caches untouched and re-raise to
the caller; a successful response (no error field, profile decode not
raising) raises nothing, keeps the connected flag and socket, and appends
to dialogs/chats/channels (by type discriminator) exactly the raw decode
results of the non-raising entries — `some v` for parsed entities and
`none` for falsy decodes, which are appended rather than skipped — while
raising decodes are logged and skipped without affecting the other
entries; contacts receive exactly the truthy decoded users; a truthy
profile contact populates `me` with its decode result. -/
theorem claim_C9_amended_sync_error_paths (st : SessionState)
    (r : SyncResponse) :
    ((sync none st).1.is_connected = false ∧ (sync none st).1.ws = false ∧
      (sync none st).2 = true ∧ (sync none st).1.dialogs = st.dialogs ∧
      (sync none st).1.chats = st.chats ∧
      (sync none st).1.channels = st.channels ∧
      (sync none st).1.contacts = st.contacts) ∧
    (r.error = true →
      (sync (some r) st).1.is_connected = false ∧
      (sync (some r) st).1.ws = false ∧
      (sync (some r) st).2 = true ∧
      (sync (some r) st).1.dialogs = st.dialogs ∧
      (sync (some r) st).1.chats = st.chats ∧
      (sync (some r) st).1.channels = st.channels ∧
      (sync (some r) st).1.contacts = st.contacts) ∧
    (r.error = false → r.profileContact ≠ some MeDecode.raisesDecode →
      (sync (some r) st).2 = false ∧
      (sync (some r) st).1.dialogs = st.dialogs ++ dialogParts r.chats ∧
      (sync (some r) st).1.chats = st.chats ++ chatParts r.chats ∧
      (sync (some r) st).1.channels = st.channels ++ channelParts r.chats ∧
      (sync (some r) st).1.contacts = st.contacts ++ contactParts r.contacts ∧
      (sync (some r) st).1.is_connected = st.is_connected ∧
      (sync (some r) st).1.ws = st.ws ∧
      (∀ v, r.profileContact = some (MeDecode.ok v) →
        (sync (some r) st).1.me = some v) ∧
      (r.profileContact = some MeDecode.noneResult →
        (sync (some r) st).1.me = none) ∧
      (r.profileContact = none → (sync (some r) st).1.me = st.me)) := by
  refine ⟨?_, ?_, ?_⟩
  · simp [sync, syncFail]
  · intro herr
    simp [sync, syncFail, herr]
  · intro herr hpc
    rcases hp : r.profileContact with _ | md
    · simp [sync, herr, hp, foldl_syncChatEntry, foldl_syncContactEntry]
    · cases md with
      | ok v =>
        simp [sync, herr, hp, foldl_syncChatEntry, foldl_syncContactEntry]
      | noneResult =>
        simp [sync, herr, hp, foldl_syncChatEntry, foldl_syncContactEntry]
      | raisesDecode => exact absurd hp hpc

/-- C9 amended witness: a response with one DIALOG entry, one CHAT entry
whose decode raises and one CHAT entry whose decode is falsy populates
dialogs with exactly the parsed dialog, skips the raising entry and
appends the falsy one as a null chats entry, leaving the session connected
and raising nothing; an error response from the same state disconnects and
re-raises. -/
theorem claim_C9_amended_sync_error_paths_witness :
    ((sync
        (some { error := false
                chats := [{ kind := ChatKind.DIALOG, decode := ChatDecode.ok 8 },
                          { kind := ChatKind.CHAT
                            decode := ChatDecode.raisesDecode },
                          { kind := ChatKind.CHAT
                            decode := ChatDecode.noneResult }]
                contacts := [UserDecode.ok 4, UserDecode.raisesDecode]
                profileContact := none })
        { dialogs := [], chats := [], channels := [], contacts := []
          me := none, ws := true, is_connected := true }).2 = false ∧
      (sync
        (some { error := false
                chats := [{ kind := ChatKind.DIALOG, decode := ChatDecode.ok 8 },
                          { kind := ChatKind.CHAT
                            decode := ChatDecode.raisesDecode },
                          { kind := ChatKind.CHAT
                            decode := ChatDecode.noneResult }]
                contacts := [UserDecode.ok 4, UserDecode.raisesDecode]
                profileContact := none })
        { dialogs := [], chats := [], channels := [], contacts := []
          me := none, ws := true, is_connected := true }).1.dialogs =
        [some 8] ∧
      (sync
        (some { error := false
                chats := [{ kind := ChatKind.DIALOG, decode := ChatDecode.ok 8 },
                          { kind := ChatKind.CHAT
                            decode := ChatDecode.raisesDecode },
                          { kind := ChatKind.CHAT
                            decode := ChatDecode.noneResult }]
                contacts := [UserDecode.ok 4, UserDecode.raisesDecode]
                profileContact := none })
        { dialogs := [], chats := [], channels := [], contacts := []
          me := none, ws := true, is_connected := true }).1.chats =
        [none]) ∧
    (sync
        (some { error := true, chats := [], contacts := []
                profileContact := none })
        { dialogs := [], chats := [], channels := [], contacts := []
          me := none, ws := true, is_connected := true }).2 = true := by
  refine ⟨⟨?_, ?_, ?_⟩, ?_⟩
  · exact ((claim_C9_amended_sync_error_paths
      { dialogs := [], chats := [], channels := [], contacts := []
        me := none, ws := true, is_connected := true }
      { error := false
        chats := [{ kind := ChatKind.DIALOG, decode := ChatDecode.ok 8 },
                  { kind := ChatKind.CHAT, decode := ChatDecode.raisesDecode },
                  { kind := ChatKind.CHAT, decode := ChatDecode.noneResult }]
        contacts := [UserDecode.ok 4, UserDecode.raisesDecode]
        profileContact := none }).2.2 rfl (by simp)).1
  · have := ((claim_C9_amended_sync_error_paths
      { dialogs := [], chats := [], channels := [], contacts := []
        me := none, ws := true, is_connected := true }
      { error := false
        chats := [{ kind := ChatKind.DIALOG, decode := ChatDecode.ok 8 },
                  { kind := ChatKind.CHAT, decode := ChatDecode.raisesDecode },
                  { kind := ChatKind.CHAT, decode := ChatDecode.noneResult }]
        contacts := [UserDecode.ok 4, UserDecode.raisesDecode]
        profileContact := none }).2.2 rfl (by simp)).2.1
    simpa [dialogParts] using this
  · have := ((claim_C9_amended_sync_error_paths
      { dialogs := [], chats := [], channels := [], contacts := []
        me := none, ws := true, is_connected := true }
      { error := false
        chats := [{ kind := ChatKind.DIALOG, decode := ChatDecode.ok 8 },
                  { kind := ChatKind.CHAT, decode := ChatDecode.raisesDecode },
                  { kind := ChatKind.CHAT, decode := ChatDecode.noneResult }]
        contacts := [UserDecode.ok 4, UserDecode.raisesDecode]
        profileContact := none }).2.2 rfl (by simp)).2.2.1
    simpa [chatParts] using this
  · exact ((claim_C9_amended_sync_error_paths
      { dialogs := [], chats := [], channels := [], contacts := []
        me := none, ws := true, is_connected := true }
      { error := true, chats := [], contacts := []
        profileContact := none }).2.1 rfl).2.2.1

/-- C10: on a NOTIF_ATTACH frame, every waiter keyed by an identifier
present in the payload is removed from the waiter map unconditionally
(afterwards no entry under that key remains, done or not); a waiter whose
future is already done gets no result set; and when the payload carries
both a fileId and a videoId keying distinct un-done waiters, both are
resolved in the same dispatch, fileId first. -/
theorem claim_C10_upload_waiters (data : InFrame)
    (waiters : List (Int × UploadFuture))
    (hop : data.opcode = Opcode.NOTIF_ATTACH) :
    (∀ i, (data.fileId = some i ∨ data.videoId = some i) →
      dictGet (handle_file_upload data waiters).1 i = none) ∧
    (∀ i fut, dictGet waiters i = some fut → fut.done = true →
      Effect.waiterResolved i ∉ (handle_file_upload data waiters).2) ∧
    (∀ i j fi fj, data.fileId = some i → data.videoId = some j → i ≠ j →
      dictGet waiters i = some fi → fi.done = false →
      dictGet waiters j = some fj → fj.done = false →
      (handle_file_upload data waiters).2 =
        [Effect.waiterResolved i, Effect.waiterResolved j]) := by
  have hnot : ¬data.opcode ≠ Opcode.NOTIF_ATTACH := by simp [hop]
  refine ⟨?_, ?_, ?_⟩
  · intro i hi
    simp only [handle_file_upload, if_neg hnot]
    rcases hi with hfi | hvi
    · have h1 : dictGet (uploadKeyStep waiters data.fileId).1 i = none := by
        rw [hfi]
        exact uploadKeyStep_fst_self waiters i
      exact uploadKeyStep_fst_none (uploadKeyStep waiters data.fileId).1
        data.videoId i h1
    · rw [hvi]
      exact uploadKeyStep_fst_self _ i
  · intro i fut hget hdone hmem
    simp only [handle_file_upload, if_neg hnot, List.mem_append] at hmem
    rcases hmem with h1 | h2
    · rcases uploadKeyStep_resolved waiters data.fileId i h1 with
        ⟨hio, fut', hget', hdone'⟩
      rw [hget'] at hget
      injection hget with hget
      rw [hget] at hdone'
      rw [hdone] at hdone'
      exact absurd hdone' (by simp)
    · rcases uploadKeyStep_resolved (uploadKeyStep waiters data.fileId).1
        data.videoId i h2 with ⟨hio, fut', hget', hdone'⟩
      by_cases hfi : data.fileId = some i
      · have hz : dictGet (uploadKeyStep waiters data.fileId).1 i = none := by
          rw [hfi]
          exact uploadKeyStep_fst_self waiters i
        rw [hz] at hget'
        exact absurd hget' (by simp)
      · have heq := uploadKeyStep_fst_ne waiters data.fileId i hfi
        rw [heq] at hget'
        rw [hget'] at hget
        injection hget with hget
        rw [hget] at hdone'
        rw [hdone] at hdone'
        exact absurd hdone' (by simp)
  · intro i j fi fj hfi hvj hij hgi hdi hgj hdj
    simp only [handle_file_upload, if_neg hnot, hfi, hvj]
    have hs1 : uploadKeyStep waiters (some i) =
        (waiters.filter fun kf => kf.1 != i, [Effect.waiterResolved i]) := by
      simp [uploadKeyStep, hgi, hdi]
    have hgj' : dictGet (waiters.filter fun kf => kf.1 != i) j =
        some fj := by
      rw [dictGet_filter_ne waiters i j (Ne.symm hij)]
      exact hgj
    have hs2 : uploadKeyStep (waiters.filter fun kf => kf.1 != i) (some j) =
        ((waiters.filter fun kf => kf.1 != i).filter fun kf => kf.1 != j,
         [Effect.waiterResolved j]) := by
      simp [uploadKeyStep, hgj', hdj]
    rw [hs1]
    simp only
    rw [hs2]
    rfl

/-- C10 witness: a NOTIF_ATTACH frame carrying fileId 1 and videoId 2 over
a waiter map holding un-done waiters under both keys and a done waiter
under 3 — both present keys are removed, both waiters are resolved in this
one dispatch, and a done waiter under a present key would get no result. -/
theorem claim_C10_upload_waiters_witness :
    dictGet
      (handle_file_upload
        { opcode := Opcode.NOTIF_ATTACH, message := none
          fileId := some 1, videoId := some 2
          reactChatId := none, reactMessageId := none, chat := none }
        [(1, ⟨false⟩), (2, ⟨false⟩), (3, ⟨true⟩)]).1 1 = none ∧
    (handle_file_upload
        { opcode := Opcode.NOTIF_ATTACH, message := none
          fileId := some 1, videoId := some 2
          reactChatId := none, reactMessageId := none, chat := none }
        [(1, ⟨false⟩), (2, ⟨false⟩), (3, ⟨true⟩)]).2 =
      [Effect.waiterResolved 1, Effect.waiterResolved 2] ∧
    Effect.waiterResolved 3 ∉
      (handle_file_upload
        { opcode := Opcode.NOTIF_ATTACH, message := none
          fileId := some 3, videoId := none
          reactChatId := none, reactMessageId := none, chat := none }
        [(1, ⟨false⟩), (2, ⟨false⟩), (3, ⟨true⟩)]).2 := by
  refine ⟨?_, ?_, ?_⟩
  · exact (claim_C10_upload_waiters
      { opcode := Opcode.NOTIF_ATTACH, message := none
        fileId := some 1, videoId := some 2
        reactChatId := none, reactMessageId := none, chat := none }
      [(1, ⟨false⟩), (2, ⟨false⟩), (3, ⟨true⟩)] rfl).1 1 (Or.inl rfl)
  · exact (claim_C10_upload_waiters
      { opcode := Opcode.NOTIF_ATTACH, message := none
        fileId := some 1, videoId := some 2
        reactChatId := none, reactMessageId := none, chat := none }
      [(1, ⟨false⟩), (2, ⟨false⟩), (3, ⟨true⟩)] rfl).2.2 1 2 ⟨false⟩ ⟨false⟩
      rfl rfl (by decide) rfl rfl rfl rfl
  · exact (claim_C10_upload_waiters
      { opcode := Opcode.NOTIF_ATTACH, message := none
        fileId := some 3, videoId := none
        reactChatId := none, reactMessageId := none, chat := none }
      [(1, ⟨false⟩), (2, ⟨false⟩), (3, ⟨true⟩)] rfl).2.1 3 ⟨true⟩ rfl rfl

end PyMax
